import Mathlib

/-!
Formal model of the Fliinow Partner API TypeScript SDK (fliinow-partner-api).

The development shallowly embeds the request lifecycle of the SDK's single HTTP
client: JSON values, the FliinowError class, the try/catch normalization in
FliinowClient.request, the per-call timeout timer, base-URL resolution at
construction, and the query-string builder of OperationsApi.list.

Modelling conventions:
  * JSON numbers are restricted to integers (all numeric values exercised by the
    claims are integers).
  * A settled fetch exchange is an explicit input (FetchOutcome): either an HTTP
    response (status, the Retry-After header value if any, and the result of
    decoding the body as JSON), or a rejection with a JS Error (carrying its
    name and message), or a rejection with a non-Error value.
  * A surfaced JS Error instance (including subclasses such as TypeError or
    SyntaxError) is modelled by RequestFailure.generic with its name and message;
    a surfaced FliinowError is RequestFailure.clientError.
  * The per-call timer is tracked by a timerCleared flag in the returned trace:
    the try block sets it on the paths where the source calls clearTimeout before
    returning or throwing, and the catch block always sets it (the source calls
    clearTimeout at the top of the catch clause).
-/

/-- JSON values, with numbers restricted to integers. -/
inductive Json where
  | null
  | bool (b : Bool)
  | num (n : Int)
  | str (s : String)
  | arr (elems : List Json)
  | obj (fields : List (String × Json))

/-- JS property access on a decoded JSON value: a key lookup on an object
(later duplicate keys win, as after JSON.parse), undefined (none) on a missing
key or a non-object. -/
def jsGet (j : Json) (key : String) : Option Json :=
  match j with
  | .obj fields => fields.foldl (fun acc kv => if kv.1 = key then some kv.2 else acc) none
  | _ => none

/-- JS truthiness of a JSON value (used for the `body ? JSON.stringify(body) :
undefined` test in the source). -/
def Json.jsTruthy : Json → Bool
  | .null => false
  | .bool b => b
  | .num n => n != 0
  | .str s => s != ""
  | .arr _ => true
  | .obj _ => true

/-- Value of the retryAfter field of a FliinowError: undefined, NaN (a JS
number that is not a number), or an actual integer. -/
inductive RetryAfterVal where
  | absent
  | nan
  | val (n : Int)
deriving DecidableEq

/-- JS parseInt(s, 10): skip leading whitespace, read an optional sign and then
the longest decimal-digit prefix; NaN (none) when no digit is found. -/
def jsParseInt (s : String) : Option Int :=
  let cs := s.data.dropWhile
    (fun c => (c == ' ') || (c == '\t') || (c == '\n') || (c == '\r') || (c == '\x0b') || (c == '\x0c'))
  match cs with
  | [] => none
  | c :: rest =>
    let signAndDigits : Int × List Char :=
      if c = '-' then (-1, rest) else if c = '+' then (1, rest) else (1, cs)
    let digits := signAndDigits.2.takeWhile Char.isDigit
    if digits.isEmpty then none
    else some (signAndDigits.1 * Int.ofNat (digits.foldl (fun a d => a * 10 + (d.toNat - 48)) 0))

/-- Source line `retryAfter ? parseInt(retryAfter, 10) : undefined` applied to
`response.headers.get("Retry-After")` (null when the header is missing): an
absent or empty-string header is falsy and yields undefined; a non-empty header
is parsed by parseInt, which yields NaN when no digit prefix exists. -/
def computeRetryAfter (hdr : Option String) : RetryAfterVal :=
  match hdr with
  | none => .absent
  | some s =>
    if s = "" then .absent
    else
      match jsParseInt s with
      | none => .nan
      | some n => .val n

/-- The FliinowError class: fields captured by its constructor. The message,
code, path and requestId fields hold the raw JSON values read off the decoded
error body by JS property access (none models undefined). -/
structure FliinowError where
  message : Option Json
  statusCode : Nat
  code : Option Json
  path : Option Json
  requestId : Option Json
  retryAfter : RetryAfterVal

/-- FliinowError constructor body: super(response.message); this.code =
response.error; this.path = response.path; this.requestId = response.requestId;
plus the status code and retryAfter passed by the caller. -/
def FliinowError.ofResponse (response : Json) (statusCode : Nat) (retryAfter : RetryAfterVal) :
    FliinowError :=
  { message := jsGet response "message"
    statusCode := statusCode
    code := jsGet response "error"
    path := jsGet response "path"
    requestId := jsGet response "requestId"
    retryAfter := retryAfter }

/-- A value thrown inside the try block of FliinowClient.request: a
FliinowError, some other JS Error (name and message), or a non-Error value. -/
inductive Thrown where
  | fliinow (e : FliinowError)
  | jsError (name : String) (message : String)
  | nonError

/-- Evaluating `new FliinowError(data as ErrorResponse, status, retryAfter)`:
when the decoded body is JSON null, reading response.message inside the
constructor throws a TypeError; otherwise the FliinowError is built. -/
def errorToThrow (data : Json) (statusCode : Nat) (retryAfter : RetryAfterVal) : Thrown :=
  match data with
  | .null => .jsError "TypeError" "Cannot read properties of null"
  | d => .fliinow (FliinowError.ofResponse d statusCode retryAfter)

/-- Outcome of the try block of FliinowClient.request: the returned value
(none models the `undefined as T` of the 204 path) or the thrown value, plus
whether clearTimeout was reached inside the try block and whether
response.json() was invoked. -/
structure TryOutcome where
  out : Except Thrown (Option Json)
  cleared : Bool
  decodeInvoked : Bool

/-- How the underlying fetch exchange settles: an HTTP response (status, value
of the Retry-After header if present, and the result of decoding the body as
JSON, where the error case carries the SyntaxError message of a failing
response.json()), a rejection with a JS Error, or a rejection with a non-Error
value. -/
inductive FetchOutcome where
  | response (status : Nat) (retryAfterHdr : Option String) (body : Except String Json)
  | reject (name : String) (message : String)
  | rejectNonError

/-- Try block of FliinowClient.request, line by line: await fetch (a rejection
propagates with the timer still scheduled), clearTimeout, the 204 early return
with no body decode, await response.json() (a decode failure throws), the
response.ok test (status 200..299), and the FliinowError throw on a non-ok
status with retryAfter computed from the Retry-After header. -/
def requestTryBlock (outcome : FetchOutcome) : TryOutcome :=
  match outcome with
  | .reject name message =>
    { out := .error (.jsError name message), cleared := false, decodeInvoked := false }
  | .rejectNonError =>
    { out := .error .nonError, cleared := false, decodeInvoked := false }
  | .response status retryAfterHdr bodyRes =>
    if status = 204 then
      { out := .ok none, cleared := true, decodeInvoked := false }
    else
      match bodyRes with
      | .error m =>
        { out := .error (.jsError "SyntaxError" m), cleared := true, decodeInvoked := true }
      | .ok data =>
        if 200 ≤ status ∧ status ≤ 299 then
          { out := .ok (some data), cleared := true, decodeInvoked := true }
        else
          { out := .error (errorToThrow data status (computeRetryAfter retryAfterHdr))
            cleared := true
            decodeInvoked := true }

/-- A failure surfaced to the caller of request: a FliinowError, or a JS Error
instance with its name and message. -/
inductive RequestFailure where
  | clientError (e : FliinowError)
  | generic (name : String) (message : String)

/-- Catch clause of FliinowClient.request: a FliinowError is rethrown
unchanged; an Error named AbortError becomes the timeout Error carrying the
configured timeout in its message; any other Error is rethrown unchanged; a
non-Error throw becomes a generic unknown Error. -/
def normalizeError (timeout : Nat) : Thrown → RequestFailure
  | .fliinow e => .clientError e
  | .jsError name message =>
    if name = "AbortError" then
      .generic "Error" ("Request timeout after " ++ toString timeout ++ "ms")
    else
      .generic name message
  | .nonError => .generic "Error" "Unknown error occurred"

/-- Result of a request call: a decoded JSON body, the undefined result of the
204 path, or a surfaced failure. -/
inductive RequestResult where
  | success (v : Json)
  | empty
  | failure (f : RequestFailure)

/-- The HTTP request assembled and handed to fetch. -/
structure SentRequest where
  method : String
  url : String
  headers : List (String × String)
  body : Option Json

/-- Observable trace of one invocation of request: the assembled HTTP request,
the result or surfaced failure, whether the timeout timer ended up cleared, and
whether the JSON-decode step ran. -/
structure RequestTrace where
  sent : SentRequest
  result : RequestResult
  timerCleared : Bool
  decodeInvoked : Bool

/-- Configuration object accepted by the FliinowClient constructor; optional
fields are none when omitted. -/
structure FliinowClientConfig where
  apiKey : String
  sandbox : Option Bool := none
  timeout : Option Nat := none
  baseUrl : Option String := none

/-- Demo (sandbox) base URL from the constructor. -/
def demoBaseUrl : String := "https://demo.fliinow.com/integration-api/v1"

/-- Production base URL from the constructor. -/
def prodBaseUrl : String := "https://app.fliinow.com/integration-api/v1"

/-- JS truthiness of an optional string (undefined and the empty string are
falsy). -/
def jsTruthyStr : Option String → Bool
  | none => false
  | some s => s != ""

/-- JS truthiness of an optional boolean (undefined is falsy). -/
def jsTruthyBool : Option Bool → Bool
  | none => false
  | some b => b

/-- Base-URL resolution in the constructor: `if (config.baseUrl) ... else if
(config.sandbox) ... else ...`, with JS truthiness on both tests. -/
def resolveBaseUrl (config : FliinowClientConfig) : String :=
  if jsTruthyStr config.baseUrl then config.baseUrl.getD ""
  else if jsTruthyBool config.sandbox then demoBaseUrl
  else prodBaseUrl

/-- Immutable state of a constructed FliinowClient. -/
structure ClientState where
  baseUrl : String
  apiKey : String
  timeout : Nat

/-- The FliinowClient constructor: stores the API key, defaults the timeout
to 30000 ms, and resolves the base URL exactly once. -/
def mkClient (config : FliinowClientConfig) : ClientState :=
  { baseUrl := resolveBaseUrl config
    apiKey := config.apiKey
    timeout := config.timeout.getD 30000 }

/-- Headers attached on every call. -/
def requestHeaders (apiKey : String) : List (String × String) :=
  [("X-Fliinow-API-Key", apiKey), ("Content-Type", "application/json"), ("Accept", "application/json")]

/-- FliinowClient.request: assembles the URL by plain concatenation and the
fixed headers, serializes a truthy body, runs the try block on the settled
fetch outcome, and normalizes any thrown value in the catch clause (which
clears the timer before rethrowing). -/
def FliinowClient.request (c : ClientState) (method : String) (path : String)
    (body : Option Json) (outcome : FetchOutcome) : RequestTrace :=
  let sent : SentRequest :=
    { method := method
      url := c.baseUrl ++ path
      headers := requestHeaders c.apiKey
      body := match body with
        | some b => if b.jsTruthy then some b else none
        | none => none }
  let t := requestTryBlock outcome
  let settled : RequestResult × Bool :=
    match t.out with
    | .ok none => (.empty, t.cleared)
    | .ok (some v) => (.success v, t.cleared)
    | .error thrown => (.failure (normalizeError c.timeout thrown), true)
  { sent := sent
    result := settled.1
    timerCleared := settled.2
    decodeInvoked := t.decodeInvoked }

/-- Timeout semantics of `setTimeout(() => controller.abort(), this.timeout)`:
when the exchange would take at least the configured timeout to settle, the
timer fires first, the in-flight fetch is aborted, and fetch rejects with a
DOMException named AbortError; otherwise the exchange settles with its own
outcome. -/
def requestTimed (c : ClientState) (method : String) (path : String) (body : Option Json)
    (elapsed : Nat) (outcome : FetchOutcome) : RequestTrace :=
  if c.timeout ≤ elapsed then
    FliinowClient.request c method path body (.reject "AbortError" "This operation was aborted")
  else
    FliinowClient.request c method path body outcome

/-- A JS value appearing as a field of a ListOperationsParams object. JS
numbers are modelled as integers (the list parameters are page indices and
sizes). An explicitly-undefined field and a missing field both behave as
excluded; undef models the former, and a missing field is simply absent from
the entries list. -/
inductive JsParamValue where
  | undef
  | null
  | str (s : String)
  | num (n : Int)
  | bool (b : Bool)
deriving DecidableEq

/-- Test `value !== undefined && value !== null` deciding whether a field is
appended to the query. -/
def JsParamValue.isIncluded : JsParamValue → Bool
  | .undef => false
  | .null => false
  | _ => true

/-- JS String(value) for the param values in scope (integers print with no
sign for nonnegative values, matching JS integer number printing). -/
def jsStringOf : JsParamValue → String
  | .undef => "undefined"
  | .null => "null"
  | .str s => s
  | .num n => toString n
  | .bool b => if b then "true" else "false"

/-- UTF-8 encoding of a character as a byte list. -/
def utf8Bytes (c : Char) : List Nat :=
  let n := c.toNat
  if n < 128 then [n]
  else if n < 2048 then [192 + n / 64, 128 + n % 64]
  else if n < 65536 then [224 + n / 4096, 128 + (n / 64) % 64, 128 + n % 64]
  else [240 + n / 262144, 128 + (n / 4096) % 64, 128 + (n / 64) % 64, 128 + n % 64]

/-- Uppercase hexadecimal digit. -/
def hexDigit (n : Nat) : Char :=
  if n < 10 then Char.ofNat (48 + n) else Char.ofNat (55 + n)

/-- Two-digit uppercase hexadecimal rendering of a byte. -/
def hexByte (b : Nat) : String :=
  String.mk [hexDigit (b / 16), hexDigit (b % 16)]

/-- Application/x-www-form-urlencoded serialization of one character, as
URLSearchParams.toString does it: space becomes a plus sign, ASCII
alphanumerics and asterisk, hyphen, period, underscore stay literal, everything
else is percent-encoded from its UTF-8 bytes. -/
def formUrlEncodeChar (c : Char) : String :=
  if c = ' ' then "+"
  else if c.isAlphanum || c = '*' || c = '-' || c = '.' || c = '_' then String.singleton c
  else String.join ((utf8Bytes c).map (fun b => "%" ++ hexByte b))

/-- Application/x-www-form-urlencoded serialization of a string. -/
def formUrlEncode (s : String) : String :=
  String.join (s.data.map formUrlEncodeChar)

/-- One serialized key=value pair of URLSearchParams.toString. -/
def encodePair (kv : String × String) : String :=
  formUrlEncode kv.1 ++ "=" ++ formUrlEncode kv.2

/-- Ampersand join of the serialized pairs, as URLSearchParams.toString. -/
def joinAmp : List String → String
  | [] => ""
  | [x] => x
  | x :: y :: ys => x ++ "&" ++ joinAmp (y :: ys)

/-- OperationsApi.buildQueryString: iterate Object.entries of the params object
in order, append each field whose value is neither undefined nor null with its
value stringified, serialize, and return either the empty string or the
serialization preceded by a question mark. -/
def buildQueryString (params : List (String × JsParamValue)) : String :=
  let searchParams := params.foldl
    (fun acc kv => if kv.2.isIncluded then acc ++ [(kv.1, jsStringOf kv.2)] else acc)
    ([] : List (String × String))
  let queryString := joinAmp (searchParams.map encodePair)
  if queryString = "" then "" else "?" ++ queryString

/-- Specification-side restatement of the query-string construction, written
from the spec sentence: include exactly the fields that are present (neither
undefined nor null), in the declaration order of the parameters object, each
value stringified; a parameter set with no included field produces no
question-mark suffix at all. Compared with buildQueryString (translated from
the source) in the C7 theorem. -/
def buildQueryStringSpec (params : List (String × JsParamValue)) : String :=
  let included := params.filter (fun kv => kv.2.isIncluded)
  if included.isEmpty then ""
  else "?" ++ joinAmp (included.map (fun kv => formUrlEncode kv.1 ++ "=" ++ formUrlEncode (jsStringOf kv.2)))

/-- OperationsApi.list, query part: `params ? this.buildQueryString(params) :
''` (an object argument, even empty, is truthy). -/
def OperationsApi.listQuery : Option (List (String × JsParamValue)) → String
  | some params => buildQueryString params
  | none => ""

/-- Path requested by OperationsApi.list. -/
def OperationsApi.listPath (params : Option (List (String × JsParamValue))) : String :=
  "/operations" ++ OperationsApi.listQuery params

/-- OperationsApi.list: one GET request against the list path with no body. -/
def OperationsApi.list (c : ClientState) (params : Option (List (String × JsParamValue)))
    (outcome : FetchOutcome) : RequestTrace :=
  FliinowClient.request c "GET" (OperationsApi.listPath params) none outcome

/-- A sample constructed client shared by the concrete witnesses. -/
def sampleClient : ClientState :=
  mkClient { apiKey := "fk_test_key", sandbox := some true, timeout := some 5000 }

/-!
Helper lemmas shared by the claim theorems.
-/

/-- When any JS property read on the decoded body succeeds, the body is not
JSON null, so constructing the FliinowError does not throw. -/
theorem errorToThrow_of_field (data : Json) (statusCode : Nat) (ra : RetryAfterVal)
    (k : String) (v : Json) (h : jsGet data k = some v) :
    errorToThrow data statusCode ra = .fliinow (FliinowError.ofResponse data statusCode ra) := by
  cases data with
  | null => simp [jsGet] at h
  | bool b => rfl
  | num n => rfl
  | str s => rfl
  | arr elems => rfl
  | obj fields => rfl

/-- Unfolding the URLSearchParams append loop: the accumulated pair list is the
filtered, stringified entry list. -/
theorem searchParams_foldl (params : List (String × JsParamValue)) :
    ∀ acc : List (String × String),
      params.foldl (fun acc kv => if kv.2.isIncluded then acc ++ [(kv.1, jsStringOf kv.2)] else acc) acc
        = acc ++ (params.filter (fun kv => kv.2.isIncluded)).map (fun kv => (kv.1, jsStringOf kv.2)) := by
  induction params with
  | nil => intro acc; simp
  | cons h t ih =>
    intro acc
    cases hh : h.2.isIncluded <;> simp [List.filter_cons, hh, ih]

/-- A serialized key=value pair is nonempty (it contains the equals sign). -/
theorem encodePair_length_pos (kv : String × String) : 0 < (encodePair kv).length := by
  have h1 : ("=" : String).length = 1 := rfl
  simp [encodePair, String.length_append, h1]

/-- The ampersand join of a nonempty list is at least as long as its head. -/
theorem joinAmp_length_ge (x : String) (xs : List String) :
    x.length ≤ (joinAmp (x :: xs)).length := by
  cases xs with
  | nil => simp [joinAmp]
  | cons y ys =>
    have h1 : ("&" : String).length = 1 := rfl
    simp [joinAmp, String.length_append, h1]
    omega

/-- The serialization of a nonempty pair list is a nonempty string. -/
theorem joinAmp_encodePair_ne (kv : String × String) (xs : List String) :
    joinAmp (encodePair kv :: xs) ≠ "" := by
  intro h
  have h1 := joinAmp_length_ge (encodePair kv) xs
  have h2 := encodePair_length_pos kv
  rw [h] at h1
  have h0 : ("" : String).length = 0 := rfl
  rw [h0] at h1
  omega

/-!
Claim theorems.
-/

/-- C1: for every HTTP response whose status is outside the interval from 200
(inclusive) to 300 (exclusive) — which excludes 204 — and whose body decodes as
a well-formed JSON error envelope with error, message, timestamp and path
fields, the request operation fails with a ClientError (FliinowError) whose
statusCode equals the HTTP status and whose code, message and path equal the
envelope's error, message and path fields. -/
theorem claim_C1_client_error_from_envelope (c : ClientState) (method pth0 : String)
    (body : Option Json) (status : Nat) (hdr : Option String) (env : Json)
    (code msg ts pth : String)
    (hstatus : status < 200 ∨ 300 ≤ status)
    (hcode : jsGet env "error" = some (.str code))
    (hmsg : jsGet env "message" = some (.str msg))
    (_hts : jsGet env "timestamp" = some (.str ts))
    (hpth : jsGet env "path" = some (.str pth)) :
    ∃ e : FliinowError,
      (FliinowClient.request c method pth0 body (.response status hdr (.ok env))).result
          = .failure (.clientError e)
        ∧ e.statusCode = status
        ∧ e.code = some (.str code)
        ∧ e.message = some (.str msg)
        ∧ e.path = some (.str pth) := by
  have h204 : ¬ status = 204 := by omega
  have hok : ¬ (200 ≤ status ∧ status ≤ 299) := by omega
  refine ⟨FliinowError.ofResponse env status (computeRetryAfter hdr), ?_, rfl, ?_, ?_, ?_⟩
  · simp [FliinowClient.request, requestTryBlock, h204, hok,
      errorToThrow_of_field env status (computeRetryAfter hdr) "error" (.str code) hcode,
      normalizeError]
  · simp [FliinowError.ofResponse, hcode]
  · simp [FliinowError.ofResponse, hmsg]
  · simp [FliinowError.ofResponse, hpth]

/-- Witness for C1 at a concrete 404 response with a well-formed envelope. -/
theorem claim_C1_witness :
    ∃ e : FliinowError,
      (FliinowClient.request sampleClient "GET" "/operations/xyz" none
          (.response 404 none
            (.ok (.obj [("error", .str "NOT_FOUND"), ("message", .str "Operation not found"),
                        ("timestamp", .str "2026-01-13T10:00:00Z"),
                        ("path", .str "/operations/xyz")])))).result
        = .failure (.clientError e)
      ∧ e.statusCode = 404
      ∧ e.code = some (.str "NOT_FOUND")
      ∧ e.message = some (.str "Operation not found")
      ∧ e.path = some (.str "/operations/xyz") :=
  claim_C1_client_error_from_envelope sampleClient "GET" "/operations/xyz" none 404 none
    (.obj [("error", .str "NOT_FOUND"), ("message", .str "Operation not found"),
           ("timestamp", .str "2026-01-13T10:00:00Z"), ("path", .str "/operations/xyz")])
    "NOT_FOUND" "Operation not found" "2026-01-13T10:00:00Z" "/operations/xyz"
    (by omega) rfl rfl rfl rfl

/-- C2: for every response with status in the interval from 200 (inclusive) to
300 (exclusive) other than 204 whose body decodes as JSON value x, the request
operation resolves with exactly x — the decoded body is returned unchanged, for
every JSON value x (hence no transformation, no schema validation, and no
rejection of unexpected fields or unrecognized enum values). -/
theorem claim_C2_success_identity (c : ClientState) (method pth : String) (body : Option Json)
    (status : Nat) (hdr : Option String) (x : Json)
    (h1 : 200 ≤ status) (h2 : status < 300) (h3 : status ≠ 204) :
    (FliinowClient.request c method pth body (.response status hdr (.ok x))).result
      = .success x := by
  have hok : 200 ≤ status ∧ status ≤ 299 := ⟨h1, by omega⟩
  simp [FliinowClient.request, requestTryBlock, h3, hok]

/-- Witness for C2 at a concrete 200 response carrying an object with an
unexpected extra field. -/
theorem claim_C2_witness :
    (FliinowClient.request sampleClient "POST" "/operations"
        (some (.obj [("externalId", .str "BOOK-001")]))
        (.response 200 none
          (.ok (.obj [("id", .str "abc123"),
                      ("financingUrl", .str "https://pay.example/abc123"),
                      ("unexpectedField", .num 7)])))).result
      = .success (.obj [("id", .str "abc123"),
                        ("financingUrl", .str "https://pay.example/abc123"),
                        ("unexpectedField", .num 7)]) :=
  claim_C2_success_identity sampleClient "POST" "/operations"
    (some (.obj [("externalId", .str "BOOK-001")])) 200 none
    (.obj [("id", .str "abc123"), ("financingUrl", .str "https://pay.example/abc123"),
           ("unexpectedField", .num 7)])
    (by omega) (by omega) (by omega)

/-- C6: for every response with status 204, the request operation resolves with
an empty (undefined) result and the JSON-decode step is never invoked,
regardless of what the body contains (including a body that would fail to
decode). -/
theorem claim_C6_no_content (c : ClientState) (method pth : String) (body : Option Json)
    (hdr : Option String) (bodyRes : Except String Json) :
    (FliinowClient.request c method pth body (.response 204 hdr bodyRes)).result = .empty
    ∧ (FliinowClient.request c method pth body (.response 204 hdr bodyRes)).decodeInvoked = false := by
  constructor <;> rfl

/-- C9: on every invocation of request, the absolute URL is the plain string
concatenation of the resolved base URL and the path (no normalization of
duplicate slashes, witnessed by the concrete double-slash conjunct), and the
API-key, Content-Type and Accept headers are attached, for every method, path,
body and outcome. -/
theorem claim_C9_url_and_headers (c : ClientState) (method pth : String) (body : Option Json)
    (outcome : FetchOutcome) :
    (FliinowClient.request c method pth body outcome).sent.url = c.baseUrl ++ pth
    ∧ (FliinowClient.request c method pth body outcome).sent.headers
        = [("X-Fliinow-API-Key", c.apiKey), ("Content-Type", "application/json"),
           ("Accept", "application/json")]
    ∧ (FliinowClient.request c method pth body outcome).sent.method = method
    ∧ (FliinowClient.request { baseUrl := "https://h/v1/", apiKey := "k", timeout := 1 }
        "GET" "/operations" none outcome).sent.url = "https://h/v1//operations" := by
  exact ⟨rfl, rfl, rfl, rfl⟩

/-- C3: when the exchange does not settle within the configured timeout, the
timer fires and aborts the in-flight fetch (requestTimed), and the call fails
with a generic timeout Error — not a ClientError — whose message contains the
configured timeout value; moreover on every exit path of request (success,
ClientError, timeout, decode failure, any rejection) the timeout timer ends up
cleared. -/
theorem claim_C3_timeout_and_timer (c : ClientState) (method pth : String) (body : Option Json)
    (elapsed : Nat) (outcome : FetchOutcome) (h : c.timeout ≤ elapsed) :
    (requestTimed c method pth body elapsed outcome).result
        = .failure (.generic "Error" ("Request timeout after " ++ toString c.timeout ++ "ms"))
    ∧ (∀ e, (requestTimed c method pth body elapsed outcome).result ≠ .failure (.clientError e))
    ∧ (∃ pre post, ("Request timeout after " ++ toString c.timeout ++ "ms")
        = pre ++ toString c.timeout ++ post)
    ∧ (∀ oc, (FliinowClient.request c method pth body oc).timerCleared = true) := by
  have hres : (requestTimed c method pth body elapsed outcome).result
      = .failure (.generic "Error" ("Request timeout after " ++ toString c.timeout ++ "ms")) := by
    simp [requestTimed, h, FliinowClient.request, requestTryBlock, normalizeError]
  refine ⟨hres, ?_, ⟨"Request timeout after ", "ms", rfl⟩, ?_⟩
  · intro e heq
    rw [hres] at heq
    simp at heq
  · intro oc
    cases oc with
    | reject name m => rfl
    | rejectNonError => rfl
    | response status hdr bodyRes =>
      by_cases h204 : status = 204
      · subst h204; rfl
      · cases bodyRes with
        | error m => simp [FliinowClient.request, requestTryBlock, h204]
        | ok data =>
          by_cases hok : 200 ≤ status ∧ status ≤ 299
          · simp [FliinowClient.request, requestTryBlock, h204, hok]
          · simp [FliinowClient.request, requestTryBlock, h204, hok]

/-- Witness for C3 at the sample client (timeout 5000 ms) with an exchange
that would take exactly the timeout to settle. -/
theorem claim_C3_witness :
    (requestTimed sampleClient "GET" "/operations" none 5000
        (.response 200 none (.ok .null))).result
      = .failure (.generic "Error" ("Request timeout after " ++ toString sampleClient.timeout ++ "ms"))
    ∧ (FliinowClient.request sampleClient "GET" "/operations" none
        (.response 204 none (.ok .null))).timerCleared = true := by
  have h := claim_C3_timeout_and_timer sampleClient "GET" "/operations" none 5000
    (.response 200 none (.ok .null)) (by decide)
  exact ⟨h.1, h.2.2.2 (.response 204 none (.ok .null))⟩

/-- C5: every failure of request other than a ClientError or a timeout is
surfaced as a normalized failure, never swallowed or downgraded: a rejection
with a JS Error that is not the abort signal surfaces as that Error; a
rejection with a non-Error value is wrapped into a generic unknown Error; a
JSON-decode failure on any non-204 response surfaces as its SyntaxError (a
generic error, not a ClientError); and in general every value thrown inside
the try block surfaces as exactly its normalization, so no throw ever resolves
the call successfully. -/
theorem claim_C5_failures_normalized (c : ClientState) (method pth : String)
    (body : Option Json) :
    (∀ name msg, name ≠ "AbortError" →
      (FliinowClient.request c method pth body (.reject name msg)).result
        = .failure (.generic name msg))
    ∧ (FliinowClient.request c method pth body .rejectNonError).result
        = .failure (.generic "Error" "Unknown error occurred")
    ∧ (∀ status hdr msg, status ≠ 204 →
      (FliinowClient.request c method pth body (.response status hdr (.error msg))).result
        = .failure (.generic "SyntaxError" msg))
    ∧ (∀ oc t, (requestTryBlock oc).out = .error t →
      (FliinowClient.request c method pth body oc).result
        = .failure (normalizeError c.timeout t)) := by
  refine ⟨?_, rfl, ?_, ?_⟩
  · intro name msg hname
    simp [FliinowClient.request, requestTryBlock, normalizeError, hname]
  · intro status hdr msg h204
    simp [FliinowClient.request, requestTryBlock, normalizeError, h204]
  · intro oc t h
    simp [FliinowClient.request, h]

/-- Witness for C5 at a concrete network failure and a concrete malformed 500
body. -/
theorem claim_C5_witness :
    (FliinowClient.request sampleClient "GET" "/operations" none
        (.reject "TypeError" "fetch failed")).result
      = .failure (.generic "TypeError" "fetch failed")
    ∧ (FliinowClient.request sampleClient "GET" "/operations" none
        (.response 500 none (.error "Unexpected token in JSON"))).result
      = .failure (.generic "SyntaxError" "Unexpected token in JSON") := by
  have h := claim_C5_failures_normalized sampleClient "GET" "/operations" none
  exact ⟨h.1 "TypeError" "fetch failed" (by decide),
    h.2.2.1 500 none "Unexpected token in JSON" (by decide)⟩

/-- C10: the catch clause is the identity on an already-constructed
FliinowError: normalization maps a thrown FliinowError to exactly that
ClientError, and whenever the try block throws a FliinowError the call
surfaces that very error with the timer cleared. -/
theorem claim_C10_rethrow_identity (c : ClientState) (method pth : String)
    (body : Option Json) (e : FliinowError) :
    normalizeError c.timeout (.fliinow e) = .clientError e
    ∧ (∀ oc, (requestTryBlock oc).out = .error (.fliinow e) →
        (FliinowClient.request c method pth body oc).result = .failure (.clientError e)
        ∧ (FliinowClient.request c method pth body oc).timerCleared = true) := by
  refine ⟨rfl, ?_⟩
  intro oc h
  constructor
  · simp [FliinowClient.request, h, normalizeError]
  · simp [FliinowClient.request, h]

/-- Witness for C10 at a concrete 500 response with a structured error body. -/
theorem claim_C10_witness :
    (FliinowClient.request sampleClient "GET" "/operations" none
        (.response 500 none
          (.ok (.obj [("error", .str "INTERNAL"), ("message", .str "boom"),
                      ("timestamp", .str "t"), ("path", .str "/operations")])))).result
      = .failure (.clientError (FliinowError.ofResponse
          (.obj [("error", .str "INTERNAL"), ("message", .str "boom"),
                 ("timestamp", .str "t"), ("path", .str "/operations")])
          500 (computeRetryAfter none))) := by
  have h := claim_C10_rethrow_identity sampleClient "GET" "/operations" none
    (FliinowError.ofResponse
      (.obj [("error", .str "INTERNAL"), ("message", .str "boom"),
             ("timestamp", .str "t"), ("path", .str "/operations")])
      500 (computeRetryAfter none))
  exact (h.2 (.response 500 none
    (.ok (.obj [("error", .str "INTERNAL"), ("message", .str "boom"),
                ("timestamp", .str "t"), ("path", .str "/operations")]))) rfl).1

/-- C4 counterexample: a 429 response whose Retry-After header is present but
not parseable as an integer yields a ClientError whose retryAfter is NaN (the
JS parseInt result), not absent as the claim states. -/
theorem claim_C4_counterexample :
    (FliinowClient.request sampleClient "GET" "/operations" none
        (.response 429 (some "soon")
          (.ok (.obj [("error", .str "RATE_LIMIT_EXCEEDED"), ("message", .str "Too many requests"),
                      ("timestamp", .str "2026-01-13T10:00:00Z"),
                      ("path", .str "/operations")])))).result
      = .failure (.clientError
          { message := some (.str "Too many requests")
            statusCode := 429
            code := some (.str "RATE_LIMIT_EXCEEDED")
            path := some (.str "/operations")
            requestId := none
            retryAfter := .nan })
    ∧ RetryAfterVal.nan ≠ RetryAfterVal.absent := by
  exact ⟨rfl, by decide⟩

/-- C4 amended: for every failed exchange with a non-2xx status and an object
error body, the ClientError's retryAfter is absent when the Retry-After header
is absent or empty, equals the parseInt value when the header is present,
non-empty and has a parseable integer prefix, and is NaN (not absent) when the
header is present and non-empty but unparseable. -/
theorem claim_C4_amended_retry_after (c : ClientState) (method pth : String) (body : Option Json)
    (status : Nat) (hdr : Option String) (fields : List (String × Json))
    (hstatus : status < 200 ∨ 300 ≤ status) :
    ∃ e : FliinowError,
      (FliinowClient.request c method pth body (.response status hdr (.ok (.obj fields)))).result
          = .failure (.clientError e)
      ∧ e.retryAfter = computeRetryAfter hdr
      ∧ (hdr = none → e.retryAfter = .absent)
      ∧ (hdr = some "" → e.retryAfter = .absent)
      ∧ (∀ s n, hdr = some s → s ≠ "" → jsParseInt s = some n → e.retryAfter = .val n)
      ∧ (∀ s, hdr = some s → s ≠ "" → jsParseInt s = none → e.retryAfter = .nan) := by
  have h204 : ¬ status = 204 := by omega
  have hok : ¬ (200 ≤ status ∧ status ≤ 299) := by omega
  refine ⟨FliinowError.ofResponse (.obj fields) status (computeRetryAfter hdr),
    ?_, rfl, ?_, ?_, ?_, ?_⟩
  · simp [FliinowClient.request, requestTryBlock, h204, hok, errorToThrow, normalizeError]
  · intro h; subst h; rfl
  · intro h; subst h; rfl
  · intro s n hs hne hp
    subst hs
    simp [FliinowError.ofResponse, computeRetryAfter, hne, hp]
  · intro s hs hne hp
    subst hs
    simp [FliinowError.ofResponse, computeRetryAfter, hne, hp]

/-- Witness for the amended C4 at a concrete 429 response with header value 5. -/
theorem claim_C4_witness :
    ∃ e : FliinowError,
      (FliinowClient.request sampleClient "GET" "/operations" none
          (.response 429 (some "5")
            (.ok (.obj [("error", .str "RATE_LIMIT_EXCEEDED"), ("message", .str "Too many requests"),
                        ("timestamp", .str "2026-01-13T10:00:00Z"),
                        ("path", .str "/operations")])))).result
        = .failure (.clientError e)
      ∧ e.retryAfter = .val 5 := by
  obtain ⟨e, hres, _, _, _, hval, _⟩ :=
    claim_C4_amended_retry_after sampleClient "GET" "/operations" none 429 (some "5")
      [("error", .str "RATE_LIMIT_EXCEEDED"), ("message", .str "Too many requests"),
       ("timestamp", .str "2026-01-13T10:00:00Z"), ("path", .str "/operations")]
      (by omega)
  exact ⟨e, hres, hval "5" 5 rfl (by decide) (by decide)⟩

/-- C7: the query string built by OperationsApi.buildQueryString agrees with
the specification-side construction — exactly the fields whose values are
neither undefined nor null, in the declaration order of the parameters object,
each value stringified — for every parameters object; a parameters object with
no included field produces the list path with no question-mark suffix at all;
and the concrete examples of the spec compute as stated. Determinism for the
same input holds because the builder is a pure function. -/
theorem claim_C7_query_string (params : List (String × JsParamValue)) :
    buildQueryString params = buildQueryStringSpec params
    ∧ ((params.filter (fun kv => kv.2.isIncluded)).isEmpty = true →
        OperationsApi.listPath (some params) = "/operations")
    ∧ OperationsApi.listPath
        (some [("status", .str "FAVORABLE"), ("page", .num 0), ("size", .num 20)])
        = "/operations?status=FAVORABLE&page=0&size=20"
    ∧ OperationsApi.listPath (some []) = "/operations"
    ∧ OperationsApi.listPath none = "/operations" := by
  have heq : buildQueryString params = buildQueryStringSpec params := by
    unfold buildQueryString buildQueryStringSpec
    rw [searchParams_foldl]
    simp only [List.nil_append, List.map_map]
    cases hf : params.filter (fun kv => kv.2.isIncluded) with
    | nil => simp [joinAmp]
    | cons kv rest =>
      have hne : joinAmp ((formUrlEncode kv.1 ++ "=" ++ formUrlEncode (jsStringOf kv.2))
          :: rest.map (fun p => formUrlEncode p.1 ++ "=" ++ formUrlEncode (jsStringOf p.2))) ≠ "" := by
        have h0 := joinAmp_encodePair_ne (kv.1, jsStringOf kv.2)
          (rest.map (fun p => formUrlEncode p.1 ++ "=" ++ formUrlEncode (jsStringOf p.2)))
        simpa [encodePair] using h0
      have hcomp : (encodePair ∘ fun kv : String × JsParamValue => (kv.1, jsStringOf kv.2))
          = fun p : String × JsParamValue =>
              formUrlEncode p.1 ++ "=" ++ formUrlEncode (jsStringOf p.2) := by
        funext p; rfl
      rw [hcomp]
      simp [hne]
  refine ⟨heq, ?_, rfl, rfl, rfl⟩
  intro hempty
  have : buildQueryStringSpec params = "" := by
    unfold buildQueryStringSpec
    simp [hempty]
  simp [OperationsApi.listPath, OperationsApi.listQuery, heq, this]

/-- Witness for C7 at a parameters object whose only field is explicitly
undefined. -/
theorem claim_C7_witness :
    buildQueryString [("status", JsParamValue.undef)]
      = buildQueryStringSpec [("status", JsParamValue.undef)]
    ∧ OperationsApi.listPath (some [("status", JsParamValue.undef)]) = "/operations" := by
  have h := claim_C7_query_string [("status", JsParamValue.undef)]
  exact ⟨h.1, h.2.1 (by decide)⟩

/-- C8 counterexample: a configuration that explicitly provides baseUrl as the
empty string together with sandbox true resolves to the demo URL, not to the
provided baseUrl — JS truthiness makes an empty-string baseUrl fall through to
the sandbox check, so a provided baseUrl does not override sandbox regardless
of which baseUrl value is provided. -/
theorem claim_C8_counterexample :
    resolveBaseUrl { apiKey := "k", sandbox := some true, baseUrl := some "" } = demoBaseUrl
    ∧ demoBaseUrl ≠ "" := by
  exact ⟨rfl, by decide⟩

/-- C8 amended: the base URL is resolved exactly once at construction with
precedence: a provided non-empty baseUrl is used, overriding sandbox regardless
of the sandbox value (a provided empty-string baseUrl is falsy in JS and is
ignored); otherwise a truthy sandbox selects the demo host; otherwise the
production host is used. -/
theorem claim_C8_amended_base_url (config : FliinowClientConfig) :
    (∀ u, config.baseUrl = some u → u ≠ "" → resolveBaseUrl config = u)
    ∧ ((config.baseUrl = none ∨ config.baseUrl = some "") →
        resolveBaseUrl config
          = (if jsTruthyBool config.sandbox then demoBaseUrl else prodBaseUrl))
    ∧ (mkClient config).baseUrl = resolveBaseUrl config := by
  refine ⟨?_, ?_, rfl⟩
  · intro u hu hne
    simp [resolveBaseUrl, jsTruthyStr, hu, bne_iff_ne, hne]
  · intro h
    rcases h with h | h <;> simp [resolveBaseUrl, jsTruthyStr, h]

/-- Witness for the amended C8 at three concrete configurations: a non-empty
baseUrl overriding sandbox, sandbox true selecting the demo host, and the
default selecting the production host. -/
theorem claim_C8_witness :
    resolveBaseUrl { apiKey := "k", sandbox := some true, baseUrl := some "https://custom.example" }
      = "https://custom.example"
    ∧ resolveBaseUrl { apiKey := "k", sandbox := some true, baseUrl := none } = demoBaseUrl
    ∧ resolveBaseUrl { apiKey := "k", sandbox := some false, baseUrl := none } = prodBaseUrl := by
  have h1 := (claim_C8_amended_base_url
    { apiKey := "k", sandbox := some true, baseUrl := some "https://custom.example" }).1
    "https://custom.example" rfl (by decide)
  have h2 := (claim_C8_amended_base_url
    { apiKey := "k", sandbox := some true, baseUrl := none }).2.1 (Or.inl rfl)
  have h3 := (claim_C8_amended_base_url
    { apiKey := "k", sandbox := some false, baseUrl := none }).2.1 (Or.inl rfl)
  exact ⟨h1, by simpa using h2, by simpa using h3⟩
